import Mathlib

/-!
Verification of the SDS1104X-E oscilloscope control core (`utils.py`).

The Python source is shallowly embedded: Python floats are modelled as
rationals (`ℚ`), byte codes as naturals/integers, fallible operations as
`Option`, and the instrument link as an explicit response environment.
Each embedded definition mirrors one function or constant of the source.
-/

/-- Allowable VDIV levels (source constant `VDIV_LEVELS`). -/
def VDIV_LEVELS : List String :=
  ["500 uV", "1 mV", "2 mV", "5 mV", "10 mV", "20 mV", "50 mV",
   "100 mV", "200 mV", "500 mV", "1 V", "2 V", "5 V", "10 V"]

/-- Allowable TDIV levels (source constant `TDIV_LEVELS`). -/
def TDIV_LEVELS : List String :=
  ["1 ns", "2 ns", "5 ns", "10 ns", "20 ns", "50 ns", "100 ns", "200 ns",
   "500 ns", "1 us", "2 us", "5 us", "10 us", "20 us", "50 us", "100 us",
   "200 us", "500 us", "1 ms", "2 ms", "5 ms", "10 ms", "20 ms", "50 ms",
   "100 ms", "200 ms", "500 ms", "1 s", "2 s", "5 s", "10 s", "20 s",
   "50 s", "100 s"]

/-- TDIV levels as numbers for calculations (source constant `TDIV_FLOATS`). -/
def TDIV_FLOATS : List ℚ :=
  [1.0e-9, 2.0e-9, 5.0e-9, 10.0e-9, 20.0e-9, 50.0e-9, 100.0e-9, 200.0e-9,
   500.0e-9, 1.0e-6, 2.0e-6, 5.0e-6, 10.0e-6, 20.0e-6, 50.0e-6, 100.0e-6,
   200.0e-6, 500.0e-6, 1.0e-3, 2.0e-3, 5.0e-3, 10.0e-3, 20.0e-3, 50.0e-3,
   100.0e-3, 200.0e-3, 500.0e-3, 1.0, 2.0, 5.0, 10.0, 20.0, 50.0, 100.0]

/-- Entry `i` of `TDIV_FLOATS` (indexing `TDIV_FLOATS[i]` in the source). -/
def tdivF (i : ℕ) : ℚ := TDIV_FLOATS.getD i 0

/-- Entry `i` of `TDIV_LEVELS` (indexing `TDIV_LEVELS[i]` in the source). -/
def tdivL (i : ℕ) : String := TDIV_LEVELS.getD i ""

/-- The signed reinterpretation of a raw byte in `calc_voltage`
(source lines `num = int(num); if num > 127: num = num - 255`). -/
def calcValue (num : ℤ) : ℤ := if 127 < num then num - 255 else num

/-- `calc_voltage(num, v_div, v_offset)` from the source:
`return num * (v_div / 25) - v_offset` after the signed reinterpretation. -/
def calc_voltage (num : ℤ) (v_div v_offset : ℚ) : ℚ :=
  (calcValue num : ℚ) * (v_div / 25) - v_offset

/-- Loop body of `match_tdiv`: one iteration of
`for i in range(len(TDIV_FLOATS)-1)`, overwriting `ret_val` whenever
`TDIV_FLOATS[i] < t < TDIV_FLOATS[i+1]` with the closer of the two
bracketing levels (`if lower < upper` picks the lower index). -/
def tdivStep (t : ℚ) (ret_val : Option String) (i : ℕ) : Option String :=
  if tdivF i < t ∧ t < tdivF (i + 1) then
    if |t - tdivF i| < |t - tdivF (i + 1)| then Option.some (tdivL i)
    else Option.some (tdivL (i + 1))
  else ret_val

/-- `match_tdiv(t)` from the source: starts from `ret_val = None` and runs
the bracketing loop over all adjacent pairs of `TDIV_FLOATS`. -/
def match_tdiv (t : ℚ) : Option String :=
  (List.range (TDIV_FLOATS.length - 1)).foldl (tdivStep t) Option.none

/-- Python's `\s` character class (ASCII whitespace). -/
def isSpaceChar (c : Char) : Bool :=
  c == ' ' || c == '\t' || c == '\n' || c == '\r' || c == '\x0B' || c == '\x0C'

/-- Python's `\w` character class (letters, digits, underscore). -/
def isWordChar (c : Char) : Bool := c.isAlpha || c.isDigit || c == '_'

/-- One atom of the reply patterns used by the getters: a literal
character, `\s`, `\w` or `\d`. -/
inductive PatItem where
  | lit (c : Char)
  | ws
  | word
  | digit
deriving DecidableEq

def patMatch : PatItem → Char → Bool
  | PatItem.lit d, c => c == d
  | PatItem.ws, c => isSpaceChar c
  | PatItem.word, c => isWordChar c
  | PatItem.digit, c => c.isDigit

/-- Match a sequence of pattern atoms at the head of the text, returning
the remaining text. -/
def matchItems : List PatItem → List Char → Option (List Char)
  | [], rest => Option.some rest
  | _ :: _, [] => Option.none
  | it :: its, c :: rest =>
    if patMatch it c then matchItems its rest else Option.none

def listStartsWith : List Char → List Char → Bool
  | [], _ => true
  | _ :: _, [] => false
  | a :: as, b :: bs => a == b && listStartsWith as bs

/-- Length of the longest head of the text without a newline (the region
`.*` may span). -/
def noNlLen (l : List Char) : ℕ := (l.takeWhile (fun c => !(c == '\n'))).length

/-- Greedy semantics of `(.*)sfx`: the capture is the longest
newline-free head of the text that is immediately followed by `sfx`. -/
def greedyCapture (sfx rest : List Char) : Option (List Char) :=
  match ((List.range (noNlLen rest + 1)).filter
      (fun i => listStartsWith sfx (rest.drop i))).getLast? with
  | Option.some i => Option.some (rest.take i)
  | Option.none => Option.none

def tryAt (pre : List PatItem) (sfx : List Char) (s : List Char) :
    Option (List Char) :=
  match matchItems pre s with
  | Option.none => Option.none
  | Option.some rest => greedyCapture sfx rest

/-- Leftmost-match search of `re.findall(pre + (.*) + sfx, s)[0]`: try the
pattern at each start position from the left; first success wins. -/
def scanFrom (pre : List PatItem) (sfx : List Char) : List Char → Option (List Char)
  | [] => tryAt pre sfx []
  | c :: rest =>
    match tryAt pre sfx (c :: rest) with
    | Option.some cap => Option.some cap
    | Option.none => scanFrom pre sfx rest

/-- `re.findall(pre\s-style-pattern(.*)sfx, s)[0]` as an optional capture. -/
def reExtract (pre : List PatItem) (sfx : String) (s : String) : Option String :=
  (scanFrom pre sfx.toList s.toList).map (fun l => String.mk l)

def litPat (s : String) : List PatItem := s.toList.map PatItem.lit

def digitsToNat (l : List Char) : ℕ :=
  l.foldl (fun a c => 10 * a + (c.toNat - 48)) 0

/-- Parsed shape of a Python decimal float literal: sign, all mantissa
digits as one natural number, the count of fractional digits, and the
decimal exponent. -/
structure PyFloatRep where
  neg : Bool
  mant : ℕ
  fracDigits : ℕ
  exp : ℤ
deriving DecidableEq

/-- Syntax phase of Python's `float(str)` on the plain decimal forms the
instrument produces: optional surrounding whitespace and sign, digits
with an optional fractional part, optional `e`/`E` exponent. -/
def pyFloatParse (l0 : List Char) : Option PyFloatRep :=
  let l1 := l0.dropWhile isSpaceChar
  let l2 := (l1.reverse.dropWhile isSpaceChar).reverse
  let signAndRest : Bool × List Char :=
    match l2 with
    | '-' :: r => (true, r)
    | '+' :: r => (false, r)
    | r => (false, r)
  let ip := signAndRest.2.takeWhile Char.isDigit
  let r1 := signAndRest.2.dropWhile Char.isDigit
  let fracAndRest : List Char × List Char :=
    match r1 with
    | '.' :: r => (r.takeWhile Char.isDigit, r.dropWhile Char.isDigit)
    | r => ([], r)
  if ip.length + fracAndRest.1.length = 0 then Option.none
  else
    match fracAndRest.2 with
    | [] =>
      Option.some ⟨signAndRest.1, digitsToNat (ip ++ fracAndRest.1),
        fracAndRest.1.length, 0⟩
    | e :: r3 =>
      if e = 'e' ∨ e = 'E' then
        let esignAndRest : Bool × List Char :=
          match r3 with
          | '-' :: r => (true, r)
          | '+' :: r => (false, r)
          | r => (false, r)
        let ed := esignAndRest.2.takeWhile Char.isDigit
        let r4 := esignAndRest.2.dropWhile Char.isDigit
        if ed.length = 0 ∨ r4 ≠ [] then Option.none
        else
          Option.some ⟨signAndRest.1, digitsToNat (ip ++ fracAndRest.1),
            fracAndRest.1.length,
            if esignAndRest.1 then -(digitsToNat ed : ℤ) else (digitsToNat ed : ℤ)⟩
      else Option.none

/-- Numeric value of a parsed Python float literal. -/
def PyFloatRep.val (r : PyFloatRep) : ℚ :=
  (if r.neg then -1 else 1) * (r.mant : ℚ) / (10 : ℚ) ^ r.fracDigits
    * (10 : ℚ) ^ r.exp

/-- Python's `float(str)` on the decimal forms above. -/
def pyFloat (s : String) : Option ℚ := (pyFloatParse s.toList).map PyFloatRep.val

/-- Shared body of the six setting getters:
`try: return float(re.findall(pattern, data)[0]) except: return None`.
A `None` reply (transport failure, a `TypeError` inside `findall`), an
unmatched pattern (`IndexError` on `[0]`) and a non-numeric capture
(`ValueError` in `float`) are all caught and collapse to `None`. -/
def reFloat (pre : List PatItem) (sfx : String) (data : Option String) :
    Option ℚ :=
  match data with
  | Option.none => Option.none
  | Option.some s =>
    match reExtract pre sfx s with
    | Option.none => Option.none
    | Option.some cap => pyFloat cap

/-- `get_tdiv`: parse `TDIV\s(.*)S` from the `TDIV?` reply. -/
def get_tdiv (data : Option String) : Option ℚ :=
  reFloat (litPat "TDIV" ++ [PatItem.ws]) "S" data

/-- `get_vdiv`: parse `\w\d:VDIV\s(.*)V` from the `C1:VDIV?` reply. -/
def get_vdiv (data : Option String) : Option ℚ :=
  reFloat ([PatItem.word, PatItem.digit] ++ litPat ":VDIV" ++ [PatItem.ws]) "V" data

/-- `get_offset`: parse `\w\d:OFST\s(.*)V` from the `C1:OFST?` reply. -/
def get_offset (data : Option String) : Option ℚ :=
  reFloat ([PatItem.word, PatItem.digit] ++ litPat ":OFST" ++ [PatItem.ws]) "V" data

/-- `get_sara`: parse `SARA\s(.*)Sa/s` from the `SARA?` reply. -/
def get_sara (data : Option String) : Option ℚ :=
  reFloat (litPat "SARA" ++ [PatItem.ws]) "Sa/s" data

/-- `get_freq`: parse `CYMT\s(.*)Hz` from the `CYMT?` reply. -/
def get_freq (data : Option String) : Option ℚ :=
  reFloat (litPat "CYMT" ++ [PatItem.ws]) "Hz" data

/-- `get_max`: parse `C1:PAVA\sMAX,(.*)V` from the `C1:PAVA? MAX` reply. -/
def get_max (data : Option String) : Option ℚ :=
  reFloat (litPat "C1:PAVA" ++ [PatItem.ws] ++ litPat "MAX,") "V" data

/-- Python slicing `l[:n]` where `n` may be negative (counted from the
end, clamped at zero). -/
def pySliceUpto {α : Type} (l : List α) (n : ℤ) : List α :=
  if n < 0 then l.take ((l.length : ℤ) + n).toNat else l.take n.toNat

/-- The data processing of `acquire`: drop the 22-byte header
(`read_raw()[22:]`), trim with `raw_data[:len(raw_data) - 3]`, decode
each remaining byte with `calc_voltage`, and build the time axis
`[i / sara for i in range(len(processed_data))]`. Returns the (time,
voltage) columns of the trace. -/
def acquire (raw : List ℕ) (v_div offset sara : ℚ) : List ℚ × List ℚ :=
  let raw1 := raw.drop 22
  let raw2 := pySliceUpto raw1 ((raw1.length : ℤ) - 3)
  let processed := raw2.map (fun i : ℕ => calc_voltage (i : ℤ) v_div offset)
  let t := (List.range processed.length).map (fun i : ℕ => (i : ℚ) / sara)
  (t, processed)

/-- A Python value as it is interpolated into an f-string command
(`f"TDIV {level}"` renders `pyNone` as the text `None`). -/
inductive PyVal where
  | int (n : ℤ)
  | float (q : ℚ)
  | str (s : String)
  | pyNone
deriving DecidableEq

/-- One SCPI exchange issued by `fit_wave`, in order: a plain query, or a
set command with its interpolated payload. -/
inductive ScopeCmd where
  | query (s : String)
  | setVdiv (level : PyVal)
  | setTdiv (level : PyVal)
  | setTrlv (level : PyVal)
deriving DecidableEq

def pvOfOptStr : Option String → PyVal
  | Option.none => PyVal.pyNone
  | Option.some s => PyVal.str s

def pvOfOptFloat : Option ℚ → PyVal
  | Option.none => PyVal.pyNone
  | Option.some q => PyVal.float q

/-- `fit_wave(scope)` as the ordered list of commands it sends, with the
scope's replies provided by the environment `env`. Steps: query the
frequency, `set_vdiv(scope, 1)`, query the peak voltage; then only when
the frequency is truthy (not `None` and not zero): set the time/division
to `match_tdiv((1/freq)/7)`, set volts/division and the trigger level to
the measured peak and arm the single trigger mode. -/
def fit_wave (env : String → Option String) : List ScopeCmd :=
  let freq := get_freq (env "CYMT?")
  let max_v := get_max (env "C1:PAVA? MAX")
  let base := [ScopeCmd.query "CYMT?", ScopeCmd.setVdiv (PyVal.int 1),
               ScopeCmd.query "C1:PAVA? MAX"]
  match freq with
  | Option.none => base
  | Option.some f =>
    if f = 0 then base
    else
      let wavelength := 1 / f
      let per_div := wavelength / 7
      let set_time := match_tdiv per_div
      base ++ [ScopeCmd.setTdiv (pvOfOptStr set_time),
               ScopeCmd.setVdiv (pvOfOptFloat max_v),
               ScopeCmd.setTrlv (pvOfOptFloat max_v),
               ScopeCmd.query "TRMD SINGLE"]

/-- An environment for `fit_wave` in which the scope reports a 0.001 Hz
signal and every other exchange fails: the target time/division
(1000/7 s) is then above the whole TDIV table. -/
def envNoMatch : String → Option String :=
  fun s => if s = "CYMT?" then Option.some "CYMT 0.001Hz" else Option.none

/-- Outcome of the underlying `instr.query` call inside `smart_query`:
a reply, a `VisaIOError`, or some other exception. -/
inductive QueryOutcome where
  | ok (s : String)
  | visaErr
  | otherErr
deriving DecidableEq

/-- `smart_query`: catches `visa.errors.VisaIOError` and returns `None`;
any other exception from `instr.query` propagates to the caller
(modelled as `Except.error`). -/
def smart_query : QueryOutcome → Except Unit (Option String)
  | QueryOutcome.ok s => Except.ok (Option.some s)
  | QueryOutcome.visaErr => Except.ok Option.none
  | QueryOutcome.otherErr => Except.error ()

/-- Observable result of a set command: whether an exception escaped to
the caller, and whether the `"Invalid ... level!"` message was printed. -/
structure SetResult where
  raised : Bool
  invalidMsg : Bool
deriving DecidableEq

/-- `set_vdiv`: `try: smart_query(scope, f"C1:VDIV {level}")
except: print("Invalid VDIV level!")`. -/
def set_vdiv (outcome : QueryOutcome) : SetResult :=
  match smart_query outcome with
  | Except.ok _ => ⟨false, false⟩
  | Except.error _ => ⟨false, true⟩

/-- `set_tdiv`: `try: smart_query(scope, f"TDIV {level}")
except: print("Invalid TDIV level!")`. -/
def set_tdiv (outcome : QueryOutcome) : SetResult :=
  match smart_query outcome with
  | Except.ok _ => ⟨false, false⟩
  | Except.error _ => ⟨false, true⟩

lemma tdiv_floats_length : TDIV_FLOATS.length = 34 := rfl

lemma tdiv_levels_length : TDIV_LEVELS.length = 34 := rfl

lemma mt_foldl_none (t : ℚ) :
    ∀ n, (∀ j, j < n → ¬(tdivF j < t ∧ t < tdivF (j + 1))) →
      (List.range n).foldl (tdivStep t) Option.none = Option.none := by
  intro n
  induction n with
  | zero => intro _; rfl
  | succ m ih =>
    intro h
    rw [List.range_succ, List.foldl_append,
      ih (fun j hj => h j (Nat.lt_succ_of_lt hj))]
    simp only [List.foldl_cons, List.foldl_nil]
    unfold tdivStep
    rw [if_neg (h m (Nat.lt_succ_self m))]

lemma mt_foldl_some_ex (t : ℚ) :
    ∀ n L, (List.range n).foldl (tdivStep t) Option.none = Option.some L →
      ∃ i, i < n ∧ (tdivF i < t ∧ t < tdivF (i + 1)) ∧
        L = (if |t - tdivF i| < |t - tdivF (i + 1)| then tdivL i
             else tdivL (i + 1)) := by
  intro n
  induction n with
  | zero => intro L h; exact absurd h (by simp)
  | succ m ih =>
    intro L h
    rw [List.range_succ, List.foldl_append] at h
    simp only [List.foldl_cons, List.foldl_nil] at h
    by_cases hb : tdivF m < t ∧ t < tdivF (m + 1)
    · refine ⟨m, Nat.lt_succ_self m, hb, ?_⟩
      unfold tdivStep at h
      rw [if_pos hb] at h
      split_ifs at h ⊢ with hcmp
      · exact (Option.some.inj h).symm
      · exact (Option.some.inj h).symm
    · unfold tdivStep at h
      rw [if_neg hb] at h
      obtain ⟨i, hi, hbr, hL⟩ := ih L h
      exact ⟨i, Nat.lt_succ_of_lt hi, hbr, hL⟩

lemma mt_foldl_eval (t : ℚ) :
    ∀ n i, i < n → (tdivF i < t ∧ t < tdivF (i + 1)) →
      (∀ j, j < n → (tdivF j < t ∧ t < tdivF (j + 1)) → j = i) →
      (List.range n).foldl (tdivStep t) Option.none
        = (if |t - tdivF i| < |t - tdivF (i + 1)| then Option.some (tdivL i)
           else Option.some (tdivL (i + 1))) := by
  intro n
  induction n with
  | zero => intro i hi; omega
  | succ m ih =>
    intro i hi hbr huniq
    rw [List.range_succ, List.foldl_append]
    simp only [List.foldl_cons, List.foldl_nil]
    by_cases him : i = m
    · subst him
      unfold tdivStep
      rw [if_pos hbr]
    · have hnb : ¬(tdivF m < t ∧ t < tdivF (m + 1)) := by
        intro hb
        exact him (huniq m (Nat.lt_succ_self m) hb).symm
      unfold tdivStep
      rw [if_neg hnb]
      exact ih i (by omega) hbr (fun j hj hb => huniq j (Nat.lt_succ_of_lt hj) hb)

set_option maxHeartbeats 2000000 in
lemma tdivF_adj : ∀ i, i < 33 → tdivF i < tdivF (i + 1) := by
  intro i hi
  interval_cases i <;>
    simp only [tdivF, TDIV_FLOATS, List.getD_cons_zero, List.getD_cons_succ] <;>
    norm_num

lemma tdivF_mono : ∀ a b : ℕ, a < b → b ≤ 33 → tdivF a < tdivF b := by
  intro a b
  induction b with
  | zero => intro h _; omega
  | succ n ih =>
    intro hab hb
    rcases Nat.lt_or_ge a n with h | h
    · exact lt_trans (ih h (by omega)) (tdivF_adj n (by omega))
    · have ha : a = n := by omega
      subst ha
      exact tdivF_adj a (by omega)

lemma tdivF_mono_le : ∀ a b : ℕ, a ≤ b → b ≤ 33 → tdivF a ≤ tdivF b := by
  intro a b hab hb
  rcases Nat.eq_or_lt_of_le hab with he | hl
  · rw [he]
  · exact le_of_lt (tdivF_mono a b hl hb)

lemma bracket_unique (t : ℚ) :
    ∀ i j, i < 33 → j < 33 → tdivF i < t → t < tdivF (i + 1) →
      tdivF j < t → t < tdivF (j + 1) → j = i := by
  have key : ∀ a b, a < b → b < 33 → t < tdivF (a + 1) → tdivF b < t → False := by
    intro a b hab hb h1 h2
    have : tdivF (a + 1) ≤ tdivF b := tdivF_mono_le (a + 1) b hab (by omega)
    linarith
  intro i j hi hj hi1 hi2 hj1 hj2
  rcases lt_trichotomy i j with h | h | h
  · exact absurd (key i j h hj hi2 hj1) id
  · exact h.symm
  · exact absurd (key j i h hi hj2 hi1) id

/-- Shared evaluation lemma: if `t` lies strictly between adjacent entries
`i` and `i+1`, `match_tdiv` returns the closer endpoint (lower on a
strictly smaller distance, otherwise upper). -/
lemma match_tdiv_eval_bracket (t : ℚ) (i : ℕ) (hi : i < 33)
    (h1 : tdivF i < t) (h2 : t < tdivF (i + 1)) :
    match_tdiv t
      = (if |t - tdivF i| < |t - tdivF (i + 1)| then Option.some (tdivL i)
         else Option.some (tdivL (i + 1))) := by
  unfold match_tdiv
  exact mt_foldl_eval t 33 i hi ⟨h1, h2⟩
    (fun j hj hb => bracket_unique t i j hi hj h1 h2 hb.1 hb.2)

/-- Shared evaluation lemma: if no adjacent pair strictly brackets `t`,
`match_tdiv` keeps its initial `None`. -/
lemma match_tdiv_eval_none (t : ℚ)
    (h : ∀ j, j < 33 → ¬(tdivF j < t ∧ t < tdivF (j + 1))) :
    match_tdiv t = Option.none := by
  unfold match_tdiv
  exact mt_foldl_none t 33 h

lemma tdivF_0 : tdivF 0 = 1 / 1000000000 := by
  simp only [tdivF, TDIV_FLOATS, List.getD_cons_zero]
  norm_num

lemma tdivF_1 : tdivF 1 = 2 / 1000000000 := by
  simp only [tdivF, TDIV_FLOATS, List.getD_cons_zero, List.getD_cons_succ]
  norm_num

lemma tdivF_2 : tdivF 2 = 5 / 1000000000 := by
  simp only [tdivF, TDIV_FLOATS, List.getD_cons_zero, List.getD_cons_succ]
  norm_num

lemma tdivF_33 : tdivF 33 = 100 := by
  simp only [tdivF, TDIV_FLOATS, List.getD_cons_zero, List.getD_cons_succ]
  norm_num

lemma mem_tdivF : ∀ t : ℚ, t ∈ TDIV_FLOATS → ∃ k, k < 34 ∧ tdivF k = t := by
  intro t ht
  obtain ⟨n, hn, he⟩ := List.mem_iff_getElem.mp ht
  refine ⟨n, by simpa [tdiv_floats_length] using hn, ?_⟩
  simp [tdivF, List.getD_eq_getElem?_getD, List.getElem?_eq_getElem hn, he]

lemma tdivL_mem : ∀ i, i < 34 → tdivL i ∈ TDIV_LEVELS := by
  intro i hi
  have hlt : i < TDIV_LEVELS.length := by rw [tdiv_levels_length]; exact hi
  have : tdivL i = TDIV_LEVELS[i] := by
    simp [tdivL, List.getD_eq_getElem?_getD, List.getElem?_eq_getElem hlt]
  rw [this]
  exact List.getElem_mem hlt

/-- C2 (amended): for t strictly between two adjacent table entries,
`match_tdiv` returns the entry with strictly smaller distance, and the
tie is broken toward the UPPER entry (the source compares with
`lower < upper` and takes the `else` branch on equality). -/
theorem match_tdiv_nearest_spec :
    ∀ (t : ℚ) (i : ℕ), i < 33 → tdivF i < t → t < tdivF (i + 1) →
      (|t - tdivF i| < |t - tdivF (i + 1)| →
        match_tdiv t = Option.some (tdivL i)) ∧
      (|t - tdivF (i + 1)| ≤ |t - tdivF i| →
        match_tdiv t = Option.some (tdivL (i + 1))) := by
  intro t i hi h1 h2
  have h := match_tdiv_eval_bracket t i hi h1 h2
  constructor
  · intro hc
    rw [h, if_pos hc]
  · intro hc
    rw [h, if_neg (not_lt.mpr hc)]

/-- C2 counterexample: t = 1.5 ns is strictly between the entries
"1 ns" and "2 ns" and equidistant from both, yet `match_tdiv` returns
the UPPER entry "2 ns", not the lower one claimed. -/
theorem match_tdiv_tie_counterexample :
    tdivF 0 < (3 / 2000000000 : ℚ) ∧ (3 / 2000000000 : ℚ) < tdivF 1 ∧
    |(3 / 2000000000 : ℚ) - tdivF 0| = |(3 / 2000000000 : ℚ) - tdivF 1| ∧
    match_tdiv (3 / 2000000000) = Option.some "2 ns" ∧
    "2 ns" ≠ tdivL 0 := by
  have h1 : tdivF 0 < (3 / 2000000000 : ℚ) := by rw [tdivF_0]; norm_num
  have h2 : (3 / 2000000000 : ℚ) < tdivF 1 := by rw [tdivF_1]; norm_num
  have heq : |(3 / 2000000000 : ℚ) - tdivF 0| = |(3 / 2000000000 : ℚ) - tdivF 1| := by
    rw [tdivF_0, tdivF_1]
    norm_num [abs_of_pos, abs_of_neg]
  refine ⟨h1, h2, heq, ?_, by decide⟩
  have h := match_tdiv_eval_bracket (3 / 2000000000) 0 (by norm_num) h1 h2
  rw [h, if_neg (by rw [heq]; exact lt_irrefl _)]
  rfl

/-- Witness for C2 at t = 3 ns, which matches "2 ns". -/
theorem match_tdiv_nearest_spec_witness :
    match_tdiv (3 / 1000000000 : ℚ) = Option.some "2 ns" := by
  have h1 : tdivF 1 < (3 / 1000000000 : ℚ) := by rw [tdivF_1]; norm_num
  have h2 : (3 / 1000000000 : ℚ) < tdivF 2 := by rw [tdivF_2]; norm_num
  have h := (match_tdiv_nearest_spec (3 / 1000000000) 1 (by norm_num) h1 h2).1
    (by rw [tdivF_1, tdivF_2]; norm_num [abs_of_pos, abs_of_neg])
  rw [h]
  rfl

/-- C3: `match_tdiv` returns None for t below the first entry, above the
last entry, or exactly equal to any table entry. -/
theorem match_tdiv_out_of_range_spec :
    ∀ t : ℚ, (t < tdivF 0 ∨ tdivF 33 < t ∨ t ∈ TDIV_FLOATS) →
      match_tdiv t = Option.none := by
  intro t h
  apply match_tdiv_eval_none
  intro j hj hb
  rcases h with hlt | hgt | hmem
  · have hle : tdivF 0 ≤ tdivF j := tdivF_mono_le 0 j (Nat.zero_le j) (by omega)
    linarith [hb.1]
  · have hle : tdivF (j + 1) ≤ tdivF 33 :=
      tdivF_mono_le (j + 1) 33 (by omega) (le_refl 33)
    linarith [hb.2]
  · obtain ⟨k, hk, hke⟩ := mem_tdivF t hmem
    rw [← hke] at hb
    have hjk : j < k := by
      by_contra hc
      have hle := tdivF_mono_le k j (by omega) (by omega)
      linarith [hb.1]
    have hkj : k < j + 1 := by
      by_contra hc
      have hle := tdivF_mono_le (j + 1) k (by omega) (by omega)
      linarith [hb.2]
    omega

/-- Witness for C3 at t = 0, below the first table entry. -/
theorem match_tdiv_out_of_range_spec_witness :
    (0 : ℚ) < tdivF 0 ∧ match_tdiv 0 = Option.none :=
  ⟨by rw [tdivF_0]; norm_num,
   match_tdiv_out_of_range_spec 0 (Or.inl (by rw [tdivF_0]; norm_num))⟩

/-- C9 counterexample: the TDIV level table has 34 entries, not the 33
the claim states. -/
theorem tdiv_table_size_counterexample : TDIV_LEVELS.length ≠ 33 := by decide

/-- C9 (amended): the VDIV table has exactly 14 entries from "500 uV" to
"10 V"; the TDIV table has exactly 34 entries from "1 ns" (1e-9 s) to
"100 s" (100 s), with exactly one paired float per entry. -/
theorem level_tables_shape_spec :
    VDIV_LEVELS.length = 14 ∧ TDIV_LEVELS.length = 34 ∧
    TDIV_FLOATS.length = TDIV_LEVELS.length ∧
    VDIV_LEVELS.getD 0 "" = "500 uV" ∧ VDIV_LEVELS.getD 13 "" = "10 V" ∧
    tdivL 0 = "1 ns" ∧ tdivL 33 = "100 s" ∧
    tdivF 0 = 1 / 1000000000 ∧ tdivF 33 = 100 :=
  ⟨rfl, rfl, rfl, rfl, rfl, rfl, rfl, tdivF_0, tdivF_33⟩

/-- C10: whenever `match_tdiv` returns a level, that level is an entry of
the TDIV table and its paired float attains the minimum distance to t
over the ENTIRE float table, not merely over the bracketing pair. -/
theorem match_tdiv_min_spec :
    ∀ (t : ℚ) (L : String), match_tdiv t = Option.some L →
      L ∈ TDIV_LEVELS ∧ ∃ i, i < TDIV_LEVELS.length ∧ tdivL i = L ∧
        ∀ j, j < TDIV_FLOATS.length → |t - tdivF i| ≤ |t - tdivF j| := by
  intro t L h
  unfold match_tdiv at h
  obtain ⟨i, hi, ⟨h1, h2⟩, hL⟩ := mt_foldl_some_ex t 33 L h
  have key : ∀ j, j < 34 →
      min (t - tdivF i) (tdivF (i + 1) - t) ≤ |t - tdivF j| := by
    intro j hj
    rcases Nat.lt_or_ge j (i + 1) with hcase | hcase
    · have hle : tdivF j ≤ tdivF i :=
        tdivF_mono_le j i (Nat.le_of_lt_succ hcase) (by omega)
      have hbnd : t - tdivF i ≤ |t - tdivF j| := by
        rw [abs_of_pos (by linarith)]
        linarith
      exact le_trans (min_le_left _ _) hbnd
    · have hle : tdivF (i + 1) ≤ tdivF j := tdivF_mono_le (i + 1) j hcase (by omega)
      have hbnd : tdivF (i + 1) - t ≤ |t - tdivF j| := by
        rw [abs_sub_comm, abs_of_pos (by linarith)]
        linarith
      exact le_trans (min_le_right _ _) hbnd
  have e1 : |t - tdivF i| = t - tdivF i := abs_of_pos (by linarith)
  have e2 : |t - tdivF (i + 1)| = tdivF (i + 1) - t := by
    rw [abs_sub_comm]
    exact abs_of_pos (by linarith)
  by_cases hcmp : |t - tdivF i| < |t - tdivF (i + 1)|
  · have hLi : L = tdivL i := by rw [hL, if_pos hcmp]
    refine ⟨hLi ▸ tdivL_mem i (by omega), i, by rw [tdiv_levels_length]; omega,
      hLi.symm, ?_⟩
    intro j hj
    rw [e1]
    have hmin : min (t - tdivF i) (tdivF (i + 1) - t) = t - tdivF i := by
      rw [e1, e2] at hcmp
      exact min_eq_left (le_of_lt hcmp)
    rw [← hmin]
    exact key j (by rw [tdiv_floats_length] at hj; exact hj)
  · have hLi : L = tdivL (i + 1) := by rw [hL, if_neg hcmp]
    refine ⟨hLi ▸ tdivL_mem (i + 1) (by omega), i + 1,
      by rw [tdiv_levels_length]; omega, hLi.symm, ?_⟩
    intro j hj
    have e2' : |t - tdivF (i + 1)| = tdivF (i + 1) - t := e2
    rw [e2']
    have hmin : min (t - tdivF i) (tdivF (i + 1) - t) = tdivF (i + 1) - t := by
      rw [e1, e2] at hcmp
      exact min_eq_right (by linarith [not_lt.mp hcmp])
    rw [← hmin]
    exact key j (by rw [tdiv_floats_length] at hj; exact hj)

/-- Witness for C10 at t = 3 ns: the returned level "2 ns" is a table
entry. -/
theorem match_tdiv_min_spec_witness : "2 ns" ∈ TDIV_LEVELS := by
  have heval : match_tdiv (3 / 1000000000 : ℚ) = Option.some "2 ns" := by
    have h1 : tdivF 1 < (3 / 1000000000 : ℚ) := by rw [tdivF_1]; norm_num
    have h2 : (3 / 1000000000 : ℚ) < tdivF 2 := by rw [tdivF_2]; norm_num
    have h := match_tdiv_eval_bracket (3 / 1000000000) 1 (by norm_num) h1 h2
    rw [h, if_pos (by rw [tdivF_1, tdivF_2]; norm_num [abs_of_pos, abs_of_neg])]
    rfl
  exact (match_tdiv_min_spec (3 / 1000000000) "2 ns" heval).1

/-- C1: for every raw byte code c in [0,255] the decoded value is c when
c ≤ 127 and c - 255 otherwise, the decoded voltage is
value * (v_div / 25) - offset, and code 200 at 1 V/div, offset 0,
decodes to -2.2 V. -/
theorem calc_voltage_decode_spec :
    ∀ c : ℕ, c ≤ 255 → ∀ v_div v_offset : ℚ,
      calcValue (c : ℤ) = (if c ≤ 127 then (c : ℤ) else (c : ℤ) - 255) ∧
      calc_voltage (c : ℤ) v_div v_offset
        = (if c ≤ 127 then (c : ℤ) else (c : ℤ) - 255) * (v_div / 25) - v_offset ∧
      calc_voltage ((200 : ℕ) : ℤ) 1 0 = -2.2 := by
  intro c _hc v_div v_offset
  have hval : calcValue (c : ℤ) = (if c ≤ 127 then (c : ℤ) else (c : ℤ) - 255) := by
    unfold calcValue
    split_ifs <;> omega
  refine ⟨hval, ?_, ?_⟩
  · unfold calc_voltage
    rw [hval]
  · have h200 : calcValue ((200 : ℕ) : ℤ) = -55 := by
      unfold calcValue
      norm_num
    unfold calc_voltage
    rw [h200]
    norm_num

/-- Witness for C1 at the concrete byte 200. -/
theorem calc_voltage_decode_spec_witness :
    (200 : ℕ) ≤ 255 ∧ calc_voltage ((200 : ℕ) : ℤ) 1 0 = -2.2 :=
  ⟨by decide, (calc_voltage_decode_spec 200 (by decide) 1 0).2.2⟩

/-- C4: for a raw frame of L ≥ 25 bytes, `acquire` decodes exactly the
L - 25 payload bytes between the 22-byte header and the 3-byte trailer,
in order, and pairs sample i with time i / sample_rate, producing
equal-length time and voltage columns. -/
theorem acquire_trace_spec :
    ∀ (raw : List ℕ) (v_div offset sara : ℚ), 25 ≤ raw.length →
      (acquire raw v_div offset sara).2
        = ((raw.drop 22).take (raw.length - 25)).map
            (fun b : ℕ => calc_voltage (b : ℤ) v_div offset) ∧
      (acquire raw v_div offset sara).2.length = raw.length - 25 ∧
      (acquire raw v_div offset sara).1.length
        = (acquire raw v_div offset sara).2.length ∧
      ∀ i, i < raw.length - 25 →
        (acquire raw v_div offset sara).1.getD i 0 = (i : ℚ) / sara := by
  intro raw vd off sara h
  have hlen1 : (raw.drop 22).length = raw.length - 22 := List.length_drop 22 raw
  have hslice : pySliceUpto (raw.drop 22) (((raw.drop 22).length : ℤ) - 3)
      = (raw.drop 22).take (raw.length - 25) := by
    unfold pySliceUpto
    rw [if_neg (by rw [hlen1]; omega)]
    congr 1
    rw [hlen1]
    omega
  have hp : (acquire raw vd off sara).2
      = ((raw.drop 22).take (raw.length - 25)).map
          (fun b : ℕ => calc_voltage (b : ℤ) vd off) := by
    simp only [acquire, hslice]
  have hplen : (acquire raw vd off sara).2.length = raw.length - 25 := by
    rw [hp, List.length_map, List.length_take, hlen1]
    omega
  have ht : (acquire raw vd off sara).1
      = (List.range ((acquire raw vd off sara).2.length)).map
          (fun i : ℕ => (i : ℚ) / sara) := rfl
  refine ⟨hp, hplen, ?_, ?_⟩
  · rw [ht, List.length_map, List.length_range]
  · intro i hi
    rw [ht, hplen]
    rw [List.getD_eq_getElem?_getD, List.getElem?_map, List.getElem?_range hi]
    rfl

/-- Witness for C4 on a concrete 26-byte frame. -/
theorem acquire_trace_spec_witness :
    25 ≤ (List.range 26).length ∧
    (acquire (List.range 26) 1 0 2).2.length = (List.range 26).length - 25 :=
  ⟨by decide, (acquire_trace_spec (List.range 26) 1 0 2 (by decide)).2.1⟩

/-- C5: every one of the six setting getters returns None on a transport
failure; for every getter, a reply its pattern does not match yields
None, and so does a reply whose captured field is not numeric (the two
`except` routes, IndexError and ValueError; the embedding is total, so
no exception reaches the caller); and the well-formed frequency reply
`CYMT 1000.5Hz` parses to 1000.5. -/
theorem getters_fail_soft_spec :
    (get_tdiv Option.none = Option.none ∧ get_vdiv Option.none = Option.none ∧
     get_offset Option.none = Option.none ∧ get_sara Option.none = Option.none ∧
     get_freq Option.none = Option.none ∧ get_max Option.none = Option.none) ∧
    get_freq (Option.some "CYMT 1000.5Hz") = Option.some (1000.5 : ℚ) ∧
    get_freq (Option.some "ERR") = Option.none ∧
    ((∀ s : String,
        reExtract (litPat "TDIV" ++ [PatItem.ws]) "S" s = Option.none →
        get_tdiv (Option.some s) = Option.none) ∧
     (∀ s : String,
        reExtract ([PatItem.word, PatItem.digit] ++ litPat ":VDIV"
          ++ [PatItem.ws]) "V" s = Option.none →
        get_vdiv (Option.some s) = Option.none) ∧
     (∀ s : String,
        reExtract ([PatItem.word, PatItem.digit] ++ litPat ":OFST"
          ++ [PatItem.ws]) "V" s = Option.none →
        get_offset (Option.some s) = Option.none) ∧
     (∀ s : String,
        reExtract (litPat "SARA" ++ [PatItem.ws]) "Sa/s" s = Option.none →
        get_sara (Option.some s) = Option.none) ∧
     (∀ s : String,
        reExtract (litPat "CYMT" ++ [PatItem.ws]) "Hz" s = Option.none →
        get_freq (Option.some s) = Option.none) ∧
     (∀ s : String,
        reExtract (litPat "C1:PAVA" ++ [PatItem.ws] ++ litPat "MAX,") "V" s
          = Option.none →
        get_max (Option.some s) = Option.none)) ∧
    ((∀ s cap : String,
        reExtract (litPat "TDIV" ++ [PatItem.ws]) "S" s = Option.some cap →
        pyFloat cap = Option.none → get_tdiv (Option.some s) = Option.none) ∧
     (∀ s cap : String,
        reExtract ([PatItem.word, PatItem.digit] ++ litPat ":VDIV"
          ++ [PatItem.ws]) "V" s = Option.some cap →
        pyFloat cap = Option.none → get_vdiv (Option.some s) = Option.none) ∧
     (∀ s cap : String,
        reExtract ([PatItem.word, PatItem.digit] ++ litPat ":OFST"
          ++ [PatItem.ws]) "V" s = Option.some cap →
        pyFloat cap = Option.none → get_offset (Option.some s) = Option.none) ∧
     (∀ s cap : String,
        reExtract (litPat "SARA" ++ [PatItem.ws]) "Sa/s" s = Option.some cap →
        pyFloat cap = Option.none → get_sara (Option.some s) = Option.none) ∧
     (∀ s cap : String,
        reExtract (litPat "CYMT" ++ [PatItem.ws]) "Hz" s = Option.some cap →
        pyFloat cap = Option.none → get_freq (Option.some s) = Option.none) ∧
     (∀ s cap : String,
        reExtract (litPat "C1:PAVA" ++ [PatItem.ws] ++ litPat "MAX,") "V" s
          = Option.some cap →
        pyFloat cap = Option.none → get_max (Option.some s) = Option.none)) := by
  refine ⟨⟨rfl, rfl, rfl, rfl, rfl, rfl⟩, ?_, by decide,
    ⟨?_, ?_, ?_, ?_, ?_, ?_⟩, ⟨?_, ?_, ?_, ?_, ?_, ?_⟩⟩
  · have h1 : reExtract (litPat "CYMT" ++ [PatItem.ws]) "Hz" "CYMT 1000.5Hz"
        = Option.some "1000.5" := by decide
    have h2 : pyFloatParse "1000.5".toList = Option.some ⟨false, 10005, 1, 0⟩ := by
      decide
    simp only [get_freq, reFloat, h1, pyFloat, h2, Option.map_some]
    norm_num [PyFloatRep.val]
  · intro s h
    simp only [get_tdiv, reFloat, h]
  · intro s h
    simp only [get_vdiv, reFloat, h]
  · intro s h
    simp only [get_offset, reFloat, h]
  · intro s h
    simp only [get_sara, reFloat, h]
  · intro s h
    simp only [get_freq, reFloat, h]
  · intro s h
    simp only [get_max, reFloat, h]
  · intro s cap h1 h2
    simp only [get_tdiv, reFloat, h1, h2]
  · intro s cap h1 h2
    simp only [get_vdiv, reFloat, h1, h2]
  · intro s cap h1 h2
    simp only [get_offset, reFloat, h1, h2]
  · intro s cap h1 h2
    simp only [get_sara, reFloat, h1, h2]
  · intro s cap h1 h2
    simp only [get_freq, reFloat, h1, h2]
  · intro s cap h1 h2
    simp only [get_max, reFloat, h1, h2]

/-- Witness for C5 on a reply that none of the six templates match. -/
theorem getters_fail_soft_spec_witness :
    reExtract (litPat "CYMT" ++ [PatItem.ws]) "Hz" "NO MATCH" = Option.none ∧
    get_tdiv (Option.some "NO MATCH") = Option.none ∧
    get_vdiv (Option.some "NO MATCH") = Option.none ∧
    get_offset (Option.some "NO MATCH") = Option.none ∧
    get_sara (Option.some "NO MATCH") = Option.none ∧
    get_freq (Option.some "NO MATCH") = Option.none ∧
    get_max (Option.some "NO MATCH") = Option.none :=
  ⟨by decide,
   getters_fail_soft_spec.2.2.2.1.1 "NO MATCH" (by decide),
   getters_fail_soft_spec.2.2.2.1.2.1 "NO MATCH" (by decide),
   getters_fail_soft_spec.2.2.2.1.2.2.1 "NO MATCH" (by decide),
   getters_fail_soft_spec.2.2.2.1.2.2.2.1 "NO MATCH" (by decide),
   getters_fail_soft_spec.2.2.2.1.2.2.2.2.1 "NO MATCH" (by decide),
   getters_fail_soft_spec.2.2.2.1.2.2.2.2.2 "NO MATCH" (by decide)⟩

/-- C6: when the frequency query yields no value or zero, `fit_wave`
still sets volts/division to the safe scale (the literal level 1) and
queries the peak voltage, but issues no time/division set, no
trigger-level command, and no trigger-mode command. -/
theorem fit_wave_no_freq_spec :
    ∀ env : String → Option String,
      (get_freq (env "CYMT?") = Option.none ∨
       get_freq (env "CYMT?") = Option.some 0) →
      fit_wave env = [ScopeCmd.query "CYMT?", ScopeCmd.setVdiv (PyVal.int 1),
                      ScopeCmd.query "C1:PAVA? MAX"] := by
  intro env h
  rcases h with h | h
  · simp only [fit_wave, h]
  · simp [fit_wave, h]

/-- Witness for C6 in an environment where every exchange fails. -/
theorem fit_wave_no_freq_spec_witness :
    fit_wave (fun _ => Option.none)
      = [ScopeCmd.query "CYMT?", ScopeCmd.setVdiv (PyVal.int 1),
         ScopeCmd.query "C1:PAVA? MAX"] :=
  fit_wave_no_freq_spec (fun _ => Option.none) (Or.inl rfl)

/-- C7: in `envNoMatch` the scope reports 0.001 Hz, the target
time/division 1000/7 s is above the whole table, `match_tdiv` yields
None — and `fit_wave` STILL issues a time/division set command, with the
interpolated payload `None` (the literal f-string text `TDIV None`),
contradicting the claim that no set command is issued. -/
theorem fit_wave_sends_tdiv_none :
    fit_wave envNoMatch
      = [ScopeCmd.query "CYMT?", ScopeCmd.setVdiv (PyVal.int 1),
         ScopeCmd.query "C1:PAVA? MAX", ScopeCmd.setTdiv PyVal.pyNone,
         ScopeCmd.setVdiv PyVal.pyNone, ScopeCmd.setTrlv PyVal.pyNone,
         ScopeCmd.query "TRMD SINGLE"] ∧
    ScopeCmd.setTdiv PyVal.pyNone ∈ fit_wave envNoMatch := by
  have hfreq : get_freq (envNoMatch "CYMT?")
      = Option.some (PyFloatRep.val ⟨false, 1, 3, 0⟩) := by
    have h2 : reExtract (litPat "CYMT" ++ [PatItem.ws]) "Hz" "CYMT 0.001Hz"
        = Option.some "0.001" := by decide
    have h3 : pyFloatParse "0.001".toList = Option.some ⟨false, 1, 3, 0⟩ := by
      decide
    have h1 : envNoMatch "CYMT?" = Option.some "CYMT 0.001Hz" := rfl
    simp only [h1, get_freq, reFloat, h2, pyFloat, h3, Option.map_some]
    rfl
  have hval : PyFloatRep.val ⟨false, 1, 3, 0⟩ = 1 / 1000 := by
    norm_num [PyFloatRep.val]
  have hmax : get_max (envNoMatch "C1:PAVA? MAX") = Option.none := rfl
  have hmatch : match_tdiv (1 / ((1 : ℚ) / 1000) / 7) = Option.none := by
    apply match_tdiv_eval_none
    intro j hj hb
    have hle : tdivF (j + 1) ≤ tdivF 33 :=
      tdivF_mono_le (j + 1) 33 (by omega) (le_refl 33)
    rw [tdivF_33] at hle
    have harg : (1 : ℚ) / ((1 : ℚ) / 1000) / 7 = 1000 / 7 := by norm_num
    rw [harg] at hb
    linarith [hb.2]
  have htrace : fit_wave envNoMatch
      = [ScopeCmd.query "CYMT?", ScopeCmd.setVdiv (PyVal.int 1),
         ScopeCmd.query "C1:PAVA? MAX", ScopeCmd.setTdiv PyVal.pyNone,
         ScopeCmd.setVdiv PyVal.pyNone, ScopeCmd.setTrlv PyVal.pyNone,
         ScopeCmd.query "TRMD SINGLE"] := by
    simp only [fit_wave, hfreq, hval, hmax]
    rw [if_neg (by norm_num)]
    rw [hmatch]
    simp [pvOfOptStr, pvOfOptFloat]
  exact ⟨htrace, by rw [htrace]; simp⟩

/-- C8 counterexample: a transport failure (`VisaIOError`) is absorbed
inside `smart_query`, so neither set command prints the
"Invalid ... level!" report the claim promises. -/
theorem set_transport_failure_counterexample :
    (set_vdiv QueryOutcome.visaErr).invalidMsg = false ∧
    (set_tdiv QueryOutcome.visaErr).invalidMsg = false ∧
    (set_vdiv QueryOutcome.visaErr).raised = false ∧
    (set_tdiv QueryOutcome.visaErr).raised = false := by
  exact ⟨rfl, rfl, rfl, rfl⟩

/-- C8 (amended): neither set command ever raises; a transport failure is
silently absorbed by `smart_query` (no "invalid level" report); the
"Invalid ... level!" message appears only when the underlying query
raises something other than a `VisaIOError`. -/
theorem set_cmds_fail_soft_spec :
    (∀ o, (set_vdiv o).raised = false ∧ (set_tdiv o).raised = false) ∧
    (set_vdiv QueryOutcome.visaErr).invalidMsg = false ∧
    (set_tdiv QueryOutcome.visaErr).invalidMsg = false ∧
    (set_vdiv QueryOutcome.otherErr).invalidMsg = true ∧
    (set_tdiv QueryOutcome.otherErr).invalidMsg = true := by
  refine ⟨?_, rfl, rfl, rfl, rfl⟩
  intro o
  cases o <;> exact ⟨rfl, rfl⟩
